import Mathlib

/-!
Verification of `techlibs/gowin/cells_xtra.py` (yosys, Gowin blackbox cell
extractor).

The script opens `<dir>/prim_sim.v`, iterates over its lines, strips `//`
line comments via `str.partition`, and for every comment-stripped line that
starts with the literal prefix `module ` prints `l[7:l.find('(')].strip()`
to standard output.  The `__main__` block writes two fixed header lines to
`cells_xtra.v` and calls the extractor once per candidate directory,
printing a notice when a directory is missing.

We embed the script shallowly: text is `List Char`, Python's string
operations (`partition`, `startswith`, `find`, slicing, `strip`) are
translated with their exact semantics (including `find`'s `-1` sentinel and
negative slice indices), the filesystem is an explicit record of functions,
and fatal exceptions become `Except`.
-/

namespace CellsXtra

/-- The characters Python's `str.strip()` removes (the ASCII whitespace
characters recognised by `str.isspace` that can occur in text files). -/
def pyIsSpace (c : Char) : Bool :=
  c = ' ' || c = '\t' || c = '\n' || c = '\r' || c = '\x0b' || c = '\x0c'

/-- Python `str.strip()`: remove leading and trailing whitespace. -/
def pyStrip (l : List Char) : List Char :=
  ((l.dropWhile pyIsSpace).reverse.dropWhile pyIsSpace).reverse

/-- The first component of Python `l.partition('//')`: the text strictly
before the first occurrence of `//` (the whole string when there is none).
The script binds the separator and the comment but never uses them. -/
def partitionComment : List Char → List Char
  | [] => []
  | c :: rest =>
    if c = '/' ∧ rest.head? = some '/' then []
    else c :: partitionComment rest

/-- Python `str.startswith`, on character lists. -/
def listStartsWith : List Char → List Char → Bool
  | [], _ => true
  | _ :: _, [] => false
  | p :: ps, c :: cs => p = c && listStartsWith ps cs

/-- The test `l.startswith("module ")` from the script. -/
def startsWithModuleKw (l : List Char) : Bool :=
  listStartsWith "module ".data l

/-- Index of the first occurrence of a character, if any. -/
def findIdxOfChar (t : Char) : List Char → Option Nat
  | [] => none
  | c :: rest =>
    if c = t then some 0 else (findIdxOfChar t rest).map (fun n => n + 1)

/-- Python `l.find(t)`: the index of the first occurrence, or `-1`. -/
def pyFind (l : List Char) (t : Char) : Int :=
  match findIdxOfChar t l with
  | some n => (n : Int)
  | none => -1

/-- Python slice `l[start:stop]` for a nonnegative `start` and an `Int`
`stop`.  A nonnegative `stop` is clipped to the length by `take`; a
negative `stop` counts from the end (`len + stop`, clipped at `0`, which is
Nat subtraction `l.length - (-stop).toNat`). -/
def pySlice (l : List Char) (start : Nat) (stop : Int) : List Char :=
  if stop < 0 then (l.take (l.length - (-stop).toNat)).drop start
  else (l.take stop.toNat).drop start

/-- The body of the extraction loop for one raw input line (the line as
Python's file iterator yields it, trailing newline included when present):
strip the `//` comment, test the `module ` prefix, and on success emit
`l[7:l.find('(')].strip()` where `l` is the comment-stripped line. -/
def processLine (line : List Char) : Option (List Char) :=
  let l := partitionComment line
  if startsWithModuleKw l then some (pyStrip (pySlice l 7 (pyFind l '('))) else none

/-- The two-state enumeration declared at the top of the script. -/
inductive State where
  | OUTSIDE
  | IN_MODULE
deriving DecidableEq

/-- The extraction loop, threading the `state` variable exactly as the
script does: the loop body never assigns it, so each iteration passes the
incoming state through unchanged.  Returns the final state and the emitted
names in order. -/
def xtractLoop : State → List (List Char) → State × List (List Char)
  | s, [] => (s, [])
  | s, line :: rest =>
    match processLine line with
    | some name => ((xtractLoop s rest).1, name :: (xtractLoop s rest).2)
    | none => xtractLoop s rest

/-- Python text-file line iteration: split after each newline, keeping the
newline character, with a final newline-less chunk kept as a last line. -/
def pySplitLines : List Char → List (List Char)
  | [] => []
  | c :: rest =>
    if c = '\n' then [c] :: pySplitLines rest
    else
      match pySplitLines rest with
      | [] => [[c]]
      | l :: ls => (c :: l) :: ls

/-- The filesystem the script runs against: which paths are directories,
and the text content of the files that exist. -/
structure FS where
  isdir : String → Bool
  contents : String → Option (List Char)

/-- Whether a path's last character is the path separator. -/
def endsWithSlash (s : String) : Bool :=
  match s.data.reverse with
  | [] => false
  | c :: _ => c = '/'

/-- `os.path.join` for the relative second components this script uses:
insert a `/` unless the first component already ends in one or is empty. -/
def pathJoin (a b : String) : String :=
  if a = "" then b else if endsWithSlash a then a ++ b else a ++ "/" ++ b

/-- `xtract_cells_decl(dir, fout)`: open `<dir>/prim_sim.v` (a missing
file is a fatal `FileNotFoundError`, modelled as `Except.error`), run the
extraction loop from `State.OUTSIDE` over the file's lines, and return the
names printed to standard output together with the (untouched) `fout`
contents. -/
def xtract_cells_decl (fs : FS) (dir : String) (fout : List String) :
    Except String (List String × List String) :=
  match fs.contents (pathJoin dir "prim_sim.v") with
  | none => Except.error ("No such file or directory: " ++ pathJoin dir "prim_sim.v")
  | some text =>
    Except.ok (((xtractLoop State.OUTSIDE (pySplitLines text)).2).map String.mk, fout)

/-- The two header lines `__main__` writes to `cells_xtra.v`: the
generated-by comment and a blank line. -/
def cells_xtra_header : List String := ["// Created by cells_xtra.py", ""]

/-- The observable outcome of a run: standard-output lines, the lines of
`cells_xtra.v`, whether the process exits with status 0, and the fatal
error, if any. -/
structure MainResult where
  stdout : List String
  cellsXtraV : List String
  exitZero : Bool
  err : Option String
deriving DecidableEq

/-- The `for dir in dirs` loop of `__main__`: print a notice when the
directory is missing, then call the extractor regardless; an extractor
error aborts the run with a nonzero status. -/
def mainGo (fs : FS) (fout : List String) (stdout : List String) :
    List String → MainResult
  | [] => ⟨stdout, fout, true, none⟩
  | d :: rest =>
    let stdout1 := if fs.isdir d then stdout else stdout ++ [d ++ " is not a directory"]
    match xtract_cells_decl fs d fout with
    | Except.error e => ⟨stdout1, fout, false, some e⟩
    | Except.ok (names, fout2) => mainGo fs fout2 (stdout1 ++ names) rest

/-- The default for the optional `gowin_dir` argument. -/
def default_gowin_dir : String := "/opt/gowin/"

/-- `__main__` with the root directory already parsed: write the two header
lines to `cells_xtra.v` and process the single-entry directory list. -/
def main_run (fs : FS) (gowin_dir : String) : MainResult :=
  mainGo fs cells_xtra_header [] [pathJoin gowin_dir "IDE/simlib/gw1n/"]

/-- The four-line `prim_sim.v` fixture of the end-to-end scenario. -/
def prim_sim_C1 : List Char :=
  ("// header comment\nmodule AND2(input A, input B, output O);\n"
    ++ "module OR2 (input A, input B, output O);\nwire x;\n").data

/-- A filesystem in which every path is a directory and the root `/r`
holds the end-to-end fixture at the expected relative location. -/
def fsC1 : FS :=
  ⟨fun _ => true,
   fun p => if p = "/r/IDE/simlib/gw1n/prim_sim.v" then some prim_sim_C1 else none⟩

/-- A filesystem with no directories and no files. -/
def fsEmpty : FS := ⟨fun _ => false, fun _ => none⟩

/-- The name-extraction formula exactly as claim C3 words it, for
comparison with `processLine`: after the prefix test on the
comment-stripped line, the slice runs from position 7 up to (but not
including) the first `(` found anywhere in the ORIGINAL un-trimmed line,
and is then whitespace-stripped.  (`processLine`, translated from the
source, instead searches for `(` in the comment-stripped line.) -/
def cellNameC3Spec (line : List Char) : Option (List Char) :=
  if startsWithModuleKw (partitionComment line) then
    some (pyStrip (pySlice line 7 (pyFind line '(')))
  else none

/-- The `state` variable of the loop is inert: `xtractLoop` returns its
initial state unchanged, and the emitted names are exactly the per-line
extraction results, independent of the state. -/
theorem xtractLoop_spec (s : State) (lines : List (List Char)) :
    xtractLoop s lines = (s, lines.filterMap processLine) := by
  induction lines with
  | nil => rfl
  | cons line rest ih =>
    cases h : processLine line <;>
      simp [xtractLoop, h, ih, List.filterMap_cons]

/-- Comment stripping distributes over an append whose first part contains
no slash at all. -/
theorem partitionComment_append {pre : List Char} (h : ('/' : Char) ∉ pre)
    (x : List Char) : partitionComment (pre ++ x) = pre ++ partitionComment x := by
  induction pre with
  | nil => rfl
  | cons c cs ih =>
    rw [List.mem_cons, not_or] at h
    have hc : ¬ c = '/' := fun hcc => h.1 hcc.symm
    simp [partitionComment, hc, ih h.2]

/-- Claim C1: for a root directory whose file `IDE/simlib/gw1n/prim_sim.v`
holds the four fixture lines, the run emits exactly `AND2` then `OR2`, in
that order, exits successfully, and `cells_xtra.v` contains exactly the two
fixed header lines and nothing else. -/
theorem C1_end_to_end (fs : FS) (root : String)
    (hdir : fs.isdir (pathJoin root "IDE/simlib/gw1n/") = true)
    (hfile : fs.contents (pathJoin (pathJoin root "IDE/simlib/gw1n/") "prim_sim.v")
      = some prim_sim_C1) :
    main_run fs root = ⟨["AND2", "OR2"], cells_xtra_header, true, none⟩ := by
  simp only [main_run, mainGo, xtract_cells_decl, hfile, hdir]
  rfl

/-- Witness for C1 at the concrete filesystem `fsC1` with root `/r`. -/
theorem C1_end_to_end_witness :
    fsC1.isdir (pathJoin "/r" "IDE/simlib/gw1n/") = true ∧
    fsC1.contents (pathJoin (pathJoin "/r" "IDE/simlib/gw1n/") "prim_sim.v")
      = some prim_sim_C1 ∧
    main_run fsC1 "/r" = ⟨["AND2", "OR2"], cells_xtra_header, true, none⟩ :=
  ⟨by decide, by decide, C1_end_to_end fsC1 "/r" (by decide) (by decide)⟩

/-- Claim C2 counterexample: the line `module NOPAREN` matches the module
prefix, contains no parenthesis after comment stripping (`find` returns the
sentinel `-1`), and yet the extraction does NOT fail: it emits the name
`NOPARE`, contradicting the claimed fatal "index not found" fault. -/
theorem C2_counterexample :
    startsWithModuleKw (partitionComment "module NOPAREN".data) = true ∧
    pyFind (partitionComment "module NOPAREN".data) '(' = -1 ∧
    processLine "module NOPAREN".data = some "NOPARE".data ∧
    processLine "module NOPAREN".data ≠ none := by
  refine ⟨by decide, by decide, by decide, by decide⟩

/-- Claim C2 amended: a matching line with no parenthesis after comment
stripping does not raise; `str.find` returns `-1` and a name is emitted. -/
theorem C2_amended_no_fault (line : List Char)
    (hmod : startsWithModuleKw (partitionComment line) = true)
    (hnop : pyFind (partitionComment line) '(' = -1) :
    ∃ name, processLine line = some name := by
  refine ⟨pyStrip (pySlice (partitionComment line) 7 (-1)), ?_⟩
  simp [processLine, hmod, hnop]

/-- Witness for the amended C2 at the concrete line `module NOPAREN`. -/
theorem C2_amended_no_fault_witness :
    startsWithModuleKw (partitionComment "module NOPAREN".data) = true ∧
    pyFind (partitionComment "module NOPAREN".data) '(' = -1 ∧
    ∃ name, processLine "module NOPAREN".data = some name :=
  ⟨by decide, by decide, C2_amended_no_fault "module NOPAREN".data (by decide) (by decide)⟩

/-- Claim C3 counterexample: on the line `module ABC//(` the code emits
`AB` (it searches for `(` in the comment-stripped line, finds none, and
slices `[7:-1]`), while the claimed formula — slice up to the first `(` of
the original un-trimmed line — yields `ABC//`. -/
theorem C3_counterexample :
    processLine "module ABC//(".data = some "AB".data ∧
    cellNameC3Spec "module ABC//(".data = some "ABC//".data ∧
    processLine "module ABC//(".data ≠ cellNameC3Spec "module ABC//(".data := by
  refine ⟨by decide, by decide, by decide⟩

/-- Claim C3 amended: the first `(` is searched for in the comment-stripped
line, not in the original line; when it is found at index `j`, the emitted
name is the comment-stripped line's substring from position 7 up to `j`,
whitespace-stripped. -/
theorem C3_amended_slice (line : List Char) (j : Nat)
    (hmod : startsWithModuleKw (partitionComment line) = true)
    (hfind : pyFind (partitionComment line) '(' = (j : Int)) :
    processLine line
      = some (pyStrip (((partitionComment line).take j).drop 7)) := by
  have hj : ¬ ((j : Int) < 0) := by omega
  simp [processLine, hmod, pySlice, hfind, hj]

/-- Witness for the amended C3 at the concrete line `module M1(x)`. -/
theorem C3_amended_slice_witness :
    startsWithModuleKw (partitionComment "module M1(x)".data) = true ∧
    pyFind (partitionComment "module M1(x)".data) '(' = (9 : Nat) ∧
    processLine "module M1(x)".data
      = some (pyStrip (((partitionComment "module M1(x)".data).take 9).drop 7)) :=
  ⟨by decide, by decide, C3_amended_slice "module M1(x)".data 9 (by decide) (by decide)⟩

/-- Claim C4: spacing is tolerated only via the final trim: any line
`module FOO (` followed by further text emits exactly `FOO`, and the line
`module  BAR(a,b,c)` (two spaces after the keyword) emits exactly `BAR`. -/
theorem C4_spacing (rest : List Char) :
    processLine ("module FOO (".data ++ rest) = some "FOO".data ∧
    processLine "module  BAR(a,b,c)".data = some "BAR".data :=
  ⟨rfl, rfl⟩

/-- Claim C5: comment stripping happens before the prefix test: a line made
of a non-module, slash-free part followed by the trailing comment
`// module FAKE(` emits nothing, while `module BAZ( // comment` emits
exactly `BAZ`. -/
theorem C5_comment_first (pre : List Char) (hns : ('/' : Char) ∉ pre)
    (hnm : startsWithModuleKw pre = false) :
    processLine (pre ++ "// module FAKE(".data) = none ∧
    processLine "module BAZ( // comment".data = some "BAZ".data := by
  refine ⟨?_, by decide⟩
  have h1 : partitionComment (pre ++ "// module FAKE(".data) = pre := by
    rw [partitionComment_append hns]
    simp [show partitionComment "// module FAKE(".data = [] from rfl]
  simp [processLine, h1, hnm]

/-- Witness for C5 at the concrete line `assign y = x; // module FAKE(`. -/
theorem C5_comment_first_witness :
    ('/' : Char) ∉ "assign y = x; ".data ∧
    startsWithModuleKw "assign y = x; ".data = false ∧
    (processLine ("assign y = x; ".data ++ "// module FAKE(".data) = none ∧
     processLine "module BAZ( // comment".data = some "BAZ".data) :=
  ⟨by decide, by decide, C5_comment_first "assign y = x; ".data (by decide) (by decide)⟩

/-- Claim C6: a line whose comment-stripped text does not start with the
prefix `module ` emits no name. -/
theorem C6_no_module_no_name (line : List Char)
    (h : startsWithModuleKw (partitionComment line) = false) :
    processLine line = none := by
  simp [processLine, h]

/-- Witness for C6 at the concrete line `wire x;`. -/
theorem C6_no_module_no_name_witness :
    startsWithModuleKw (partitionComment "wire x;".data) = false ∧
    processLine "wire x;".data = none :=
  ⟨by decide, C6_no_module_no_name "wire x;".data (by decide)⟩

/-- Claim C7: frame property: whatever the filesystem, `cells_xtra.v` ends
up holding exactly the two header lines; the `fout` handle passed to the
extractor is returned untouched, and every per-cell name goes to the
standard-output component instead. -/
theorem C7_frame (fs : FS) (g dir : String) (fout : List String)
    (text : List Char)
    (hfile : fs.contents (pathJoin dir "prim_sim.v") = some text) :
    (main_run fs g).cellsXtraV = cells_xtra_header ∧
    xtract_cells_decl fs dir fout
      = Except.ok (((pySplitLines text).filterMap processLine).map String.mk, fout) := by
  constructor
  · rcases hc : fs.contents (pathJoin (pathJoin g "IDE/simlib/gw1n/") "prim_sim.v")
      with _ | t <;>
      simp [main_run, mainGo, xtract_cells_decl, hc]
  · simp [xtract_cells_decl, hfile, xtractLoop_spec]

/-- Witness for C7 at the concrete filesystem `fsC1`. -/
theorem C7_frame_witness :
    fsC1.contents (pathJoin "/r/IDE/simlib/gw1n/" "prim_sim.v") = some prim_sim_C1 ∧
    ((main_run fsC1 "/r").cellsXtraV = cells_xtra_header ∧
     xtract_cells_decl fsC1 "/r/IDE/simlib/gw1n/" []
       = Except.ok (((pySplitLines prim_sim_C1).filterMap processLine).map String.mk, [])) :=
  ⟨by decide, C7_frame fsC1 "/r" "/r/IDE/simlib/gw1n/" [] prim_sim_C1 (by decide)⟩

/-- Claim C8: when the candidate directory does not exist and the source
file is absent, the run prints the "is not a directory" notice, still
invokes the extractor, and aborts with a file-not-found error and a
nonzero exit status. -/
theorem C8_missing_dir (fs : FS) (g : String)
    (hdir : fs.isdir (pathJoin g "IDE/simlib/gw1n/") = false)
    (hfile : fs.contents (pathJoin (pathJoin g "IDE/simlib/gw1n/") "prim_sim.v") = none) :
    main_run fs g
      = ⟨[pathJoin g "IDE/simlib/gw1n/" ++ " is not a directory"], cells_xtra_header,
         false,
         some ("No such file or directory: "
           ++ pathJoin (pathJoin g "IDE/simlib/gw1n/") "prim_sim.v")⟩ := by
  simp [main_run, mainGo, xtract_cells_decl, hdir, hfile]

/-- Witness for C8 at the empty filesystem and the default root. -/
theorem C8_missing_dir_witness :
    fsEmpty.isdir (pathJoin "/opt/gowin/" "IDE/simlib/gw1n/") = false ∧
    fsEmpty.contents (pathJoin (pathJoin "/opt/gowin/" "IDE/simlib/gw1n/") "prim_sim.v")
      = none ∧
    main_run fsEmpty "/opt/gowin/"
      = ⟨[pathJoin "/opt/gowin/" "IDE/simlib/gw1n/" ++ " is not a directory"],
         cells_xtra_header, false,
         some ("No such file or directory: "
           ++ pathJoin (pathJoin "/opt/gowin/" "IDE/simlib/gw1n/") "prim_sim.v")⟩ :=
  ⟨by decide, by decide, C8_missing_dir fsEmpty "/opt/gowin/" (by decide) (by decide)⟩

/-- Claim C9: the two-state enumeration is inert: started at `OUTSIDE`, the
loop's state is still `OUTSIDE` after any prefix of the input (i.e. at
every iteration), and the emitted output is exactly the per-line extraction
results, unaffected by the state. -/
theorem C9_state_inert (pre suff : List (List Char)) :
    (xtractLoop State.OUTSIDE pre).1 = State.OUTSIDE ∧
    (xtractLoop State.OUTSIDE (pre ++ suff)).2
      = (pre ++ suff).filterMap processLine := by
  simp [xtractLoop_spec]

/-- Claim C10: per-line processing is total: when the comment-stripped line
starts with `module ` but contains no `(`, the `find` sentinel `-1` makes
the slice run from position 7 up to the last character exclusive, so a
stripped, truncated name is emitted rather than an error being raised. -/
theorem C10_no_paren_truncates (line : List Char)
    (hmod : startsWithModuleKw (partitionComment line) = true)
    (hnop : pyFind (partitionComment line) '(' = -1) :
    processLine line
      = some (pyStrip
          (((partitionComment line).take ((partitionComment line).length - 1)).drop 7)) := by
  simp [processLine, hmod, pySlice, hnop]

/-- Witness for C10 at the concrete line `module ABC//(`, which emits
`AB`. -/
theorem C10_no_paren_truncates_witness :
    startsWithModuleKw (partitionComment "module ABC//(".data) = true ∧
    pyFind (partitionComment "module ABC//(".data) '(' = -1 ∧
    processLine "module ABC//(".data = some "AB".data :=
  ⟨by decide, by decide,
   C10_no_paren_truncates "module ABC//(".data (by decide) (by decide)⟩

end CellsXtra
